import Mathlib

/-!
Verification of the interaction core of the AI-Studio gesture-controlled
3D ornament application.

The development shallowly embeds the three relevant source units:

* `src/components/HandController.tsx` — the gesture classifier
  (`detectFist`, `detectOpenPalm`, `detectPinch`, `detectPointing`,
  `onResults`);
* `src/App.tsx` — the interaction state machine (`handleGesture`,
  `handlePhotoSelect`, `handleCloseInspect`, `handleDeleteClick`,
  `handleFileUpload`);
* `src/components/MagicScene.tsx` — the procedural layout generator
  (`items`, `allItems`) and the per-tick position blend of `MagicItem`.

Numbers are modelled as `ℚ` wherever the JavaScript code computes with
plain arithmetic, and as `ℝ` where trigonometric functions enter
(assembled/dispersed cartesian poses).  `Math.random()` draws are
modelled as an explicit oracle `g : ℕ → ℚ` whose values are assumed to
lie in `[0, 1)`; the draws are indexed in the order in which the code
consumes them.
-/

namespace AIStudio

/-! ## Gesture classifier (src/components/HandController.tsx) -/

/-- One hand landmark in normalized screen space (MediaPipe point).
Only the `x`/`y` components are read by the classifier. -/
structure Landmark where
  x : ℚ
  y : ℚ

/-- A landmark frame: landmark index → point.  The code indexes the
MediaPipe array `lm[i]` directly; per the capture-pipeline precondition
all 21 indices are present, so a total function is used. -/
def Frame : Type := ℕ → Landmark

/-- `HandGestureData` from `src/types.ts`. -/
structure HandGestureData where
  isFist : Bool
  isOpen : Bool
  isPinching : Bool
  isPointing : Bool
  handPosition : ℚ × ℚ
deriving DecidableEq

/-- `detectFist` (HandController.tsx lines 112-120): every non-thumb
fingertip (8, 12, 16, 20) is below its PIP joint (tip index − 2);
screen-space y grows downward. -/
def detectFist (lm : Frame) : Bool :=
  [8, 12, 16, 20].all fun tipIdx => decide ((lm tipIdx).y > (lm (tipIdx - 2)).y)

/-- `detectOpenPalm` (HandController.tsx lines 122-128): every non-thumb
fingertip is above its PIP joint. -/
def detectOpenPalm (lm : Frame) : Bool :=
  [8, 12, 16, 20].all fun tipIdx => decide ((lm tipIdx).y < (lm (tipIdx - 2)).y)

/-- `detectPinch` (HandController.tsx lines 130-136): the Euclidean
distance between index tip (8) and thumb tip (4) is below `0.05`.  The
code compares `Math.sqrt(dx*dx+dy*dy) < 0.05`; since both sides are
nonnegative this is equivalently stated on the squares, keeping the
predicate decidable over `ℚ`. -/
def detectPinch (lm : Frame) : Bool :=
  let dx := (lm 8).x - (lm 4).x
  let dy := (lm 8).y - (lm 4).y
  decide (dx * dx + dy * dy < (5 / 100) ^ 2)

/-- `detectPointing` (HandController.tsx lines 138-148): index tip above
its PIP, middle/ring/pinky tips below theirs. -/
def detectPointing (lm : Frame) : Bool :=
  let indexExtended := decide ((lm 8).y < (lm 6).y)
  let middleFolded := decide ((lm 12).y > (lm 10).y)
  let ringFolded := decide ((lm 16).y > (lm 14).y)
  let pinkyFolded := decide ((lm 20).y > (lm 18).y)
  indexExtended && middleFolded && ringFolded && pinkyFolded

/-- The hand-present branch of `onResults` (HandController.tsx lines
82-103): classify all four flags and emit the mirrored hand centre
(midpoint of wrist `lm[0]` and middle-finger base `lm[9]`). -/
def classifyHand (lm : Frame) : HandGestureData :=
  let wrist := lm 0
  let middle := lm 9
  let centerX := (wrist.x + middle.x) / 2
  let centerY := (wrist.y + middle.y) / 2
  { isFist := detectFist lm
    isOpen := detectOpenPalm lm
    isPinching := detectPinch lm
    isPointing := detectPointing lm
    handPosition := (1 - centerX, centerY) }

/-- The neutral signal emitted when no hand is detected
(HandController.tsx line 106). -/
def neutralGesture : HandGestureData :=
  { isFist := false
    isOpen := false
    isPinching := false
    isPointing := false
    handPosition := (1 / 2, 1 / 2) }

/-- `onResults` (HandController.tsx lines 81-108).  The input models
`results.multiHandLandmarks`: `none` when the field is absent, otherwise
the list of detected hands.  The code classifies the first hand when the
list is nonempty and falls back to the neutral signal otherwise. -/
def onResults (multiHandLandmarks : Option (List Frame)) : HandGestureData :=
  match multiHandLandmarks with
  | some (lm :: _) => classifyHand lm
  | some [] => neutralGesture
  | none => neutralGesture

/-! ## Decimal id rendering

The code builds item ids with template literals such as
`` `photo-${i}` ``; the number is rendered in standard decimal.  A
fuel-indexed structural printer keeps every definition kernel-reducible.
-/

/-- Most-significant-first decimal digits of `n`, structurally recursive
on a fuel bound (`fuel ≥ n` suffices). -/
def natDigitsAux : ℕ → ℕ → List ℕ
  | 0, _ => []
  | _ + 1, 0 => []
  | fuel + 1, n + 1 => natDigitsAux fuel ((n + 1) / 10) ++ [(n + 1) % 10]

/-- Decimal rendering of a natural number, as JavaScript's number →
string conversion produces inside a template literal. -/
def natStr (n : ℕ) : String :=
  if n = 0 then "0" else ((natDigitsAux n n).map Nat.digitChar).asString

/-- The id the code assigns to the photo built from collection index
`k`: `` `photo-${k}` ``. -/
def photoId (k : ℕ) : String := "photo-" ++ natStr k

/-! ## Interaction state machine (src/App.tsx) -/

/-- `AppState` from `src/types.ts`: TREE is the spec's ASSEMBLED mode,
SCATTER its DISPERSED mode, INSPECT its FOCUSED mode. -/
inductive AppState
  | TREE
  | SCATTER
  | INSPECT
deriving DecidableEq

/-- The React state owned by `App` that the interaction logic reads and
writes: current mode, focused item id, pending delete-confirmation, the
previous tick's `isPointing` (edge detection), the gesture cooldown
deadline (`Date.now()`-style milliseconds) and the photo collection. -/
structure MachineState where
  appState : AppState
  focusId : Option String
  deleteConfirm : Bool
  wasPointing : Bool
  gestureCooldown : ℤ
  photos : List String
deriving DecidableEq

/-- Initial React state (App.tsx lines 71-104): TREE mode, no focus, no
pending confirmation, `wasPointingRef` false, cooldown 0, no photos. -/
def initState : MachineState :=
  { appState := .TREE
    focusId := none
    deleteConfirm := false
    wasPointing := false
    gestureCooldown := 0
    photos := [] }

/-- `Math.floor(Math.random() * photos.length)` for a drawn value
`rnd`. -/
def randomIndex (rnd : ℚ) (n : ℕ) : ℕ := (⌊rnd * n⌋).toNat

/-- `handleGesture` (App.tsx lines 145-194).  `now` is `Date.now()` at
the tick, `rnd` the `Math.random()` draw the pointing branch would
consume.  The cooldown check precedes everything, including the
`wasPointingRef` update; the four prioritized branches then mirror the
code: fist reset, pointing selection (re-randomized only on a fresh
point or from a non-INSPECT mode), open-hand scatter, and the
pinch-from-SCATTER fallback. -/
def handleGesture (now : ℤ) (data : HandGestureData) (rnd : ℚ)
    (s : MachineState) : MachineState :=
  if now < s.gestureCooldown then s
  else
    let isFreshPoint := data.isPointing && !s.wasPointing
    let s1 := { s with wasPointing := data.isPointing }
    if data.isFist then
      { s1 with focusId := none, deleteConfirm := false, appState := .TREE }
    else if data.isPointing ∧ 0 < s1.photos.length then
      if s1.appState ≠ AppState.INSPECT ∨ isFreshPoint then
        { s1 with
            focusId := some (photoId (randomIndex rnd s1.photos.length))
            deleteConfirm := false
            appState := .INSPECT }
      else
        { s1 with appState := .INSPECT }
    else if data.isOpen then
      if s1.appState = AppState.INSPECT then
        { s1 with focusId := none, deleteConfirm := false, appState := .SCATTER }
      else
        { s1 with appState := .SCATTER }
    else if s1.appState = AppState.SCATTER ∧ data.isPinching ∧ 0 < s1.photos.length then
      if s1.focusId = none then
        { s1 with focusId := some (photoId 0), deleteConfirm := false, appState := .INSPECT }
      else
        { s1 with appState := .INSPECT }
    else
      s1

/-- `handlePhotoSelect` (App.tsx lines 230-234): direct click selection,
not cooldown-gated. -/
def handlePhotoSelect (id : String) (s : MachineState) : MachineState :=
  { s with focusId := some id, deleteConfirm := false, appState := .INSPECT }

/-- `handleCloseInspect` (App.tsx lines 260-265). -/
def handleCloseInspect (now : ℤ) (s : MachineState) : MachineState :=
  { s with
      focusId := none
      appState := .SCATTER
      deleteConfirm := false
      gestureCooldown := now + 1000 }

/-- The `focusId.split('-')[1]` / `parseInt` parse in `handleDeleteClick`
(App.tsx lines 243-246), guarded by `focusId.startsWith('photo-')`.
`parseInt` is modelled by `String.toNat?`; both reject the empty or
non-numeric strings that can reach this point, and all ids the machine
itself produces are of the exact shape `photo-<decimal>`. -/
def parsePhotoIndex (id : String) : Option ℕ :=
  if id.startsWith "photo-" then ((id.splitOn "-").getD 1 "").toNat? else none

/-- `handleDeleteClick` (App.tsx lines 236-258).  First click arms the
confirmation; second click deletes the focused photo (splice at the
parsed index), clears focus and confirmation, returns to SCATTER and
arms a 2-second gesture cooldown. -/
def handleDeleteClick (now : ℤ) (s : MachineState) : MachineState :=
  if s.deleteConfirm = false then
    { s with deleteConfirm := true }
  else
    match s.focusId with
    | none => s
    | some fid =>
      match parsePhotoIndex fid with
      | none => s
      | some idx =>
        { s with
            photos := s.photos.eraseIdx idx
            focusId := none
            deleteConfirm := false
            appState := .SCATTER
            gestureCooldown := now + 2000 }

/-- `handleFileUpload` (App.tsx lines 196-213): append the new object
URLs, capped so the collection never exceeds `MAX_PHOTOS = 20`. -/
def handleFileUpload (urls : List String) (s : MachineState) : MachineState :=
  if 20 - s.photos.length ≤ 0 then s
  else { s with photos := s.photos ++ urls.take (20 - s.photos.length) }

/-- The events that can mutate the machine state: a classifier tick, a
direct pointer selection, the CLOSE button, the DELETE button, the
3-second confirmation timeout (App.tsx line 240), and a photo upload. -/
inductive Event
  | gesture (now : ℤ) (data : HandGestureData) (rnd : ℚ)
  | select (id : String)
  | closeInspect (now : ℤ)
  | deleteClick (now : ℤ)
  | confirmTimeout
  | upload (urls : List String)

/-- Dispatch one event to its handler. -/
def step : Event → MachineState → MachineState
  | .gesture now data rnd, s => handleGesture now data rnd s
  | .select id, s => handlePhotoSelect id s
  | .closeInspect now, s => handleCloseInspect now s
  | .deleteClick now, s => handleDeleteClick now s
  | .confirmTimeout, s => { s with deleteConfirm := false }
  | .upload urls, s => handleFileUpload urls s

/-- Run a sequence of events from a state. -/
def runEvents (es : List Event) (s : MachineState) : MachineState :=
  es.foldl (fun s e => step e s) s

/-- Run a sequence of gesture ticks `(now, data, rnd)` from a state. -/
def runGestures (ticks : List (ℤ × HandGestureData × ℚ)) (s : MachineState) :
    MachineState :=
  ticks.foldl (fun s tk => handleGesture tk.1 tk.2.1 tk.2.2 s) s

/-! ## Animation blend step (src/components/MagicScene.tsx, MagicItem)

`meshRef.current.position.lerp(targetPos, delta * 3.0)` (line 166) uses
`THREE.Vector3.lerp`, which moves each component by
`p + (t − p) * alpha`.  Positions here are rational triples. -/

/-- A 3D vector as used by the blend computation. -/
abbrev Vec3 : Type := ℚ × ℚ × ℚ

/-- `THREE.Vector3.lerp`: componentwise `p + (t − p) * alpha`. -/
def vlerp (p t : Vec3) (alpha : ℚ) : Vec3 :=
  (p.1 + (t.1 - p.1) * alpha,
   p.2.1 + (t.2.1 - p.2.1) * alpha,
   p.2.2 + (t.2.2 - p.2.2) * alpha)

/-- Squared Euclidean distance between two vectors; comparisons of
Euclidean distances coincide with comparisons of their squares. -/
def dist2 (p t : Vec3) : ℚ :=
  (p.1 - t.1) ^ 2 + (p.2.1 - t.2.1) ^ 2 + (p.2.2 - t.2.2) ^ 2

/-- The render-tick position update toward a constant target: the code's
`position.lerp(targetPos, delta * 3.0)`. -/
def blendStep (t : Vec3) (p : Vec3) (delta : ℚ) : Vec3 :=
  vlerp p t (delta * 3)

/-- Iterate the blend step over a list of per-tick elapsed deltas. -/
def blendRun (t : Vec3) (p : Vec3) (deltas : List ℚ) : Vec3 :=
  deltas.foldl (blendStep t) p

/-! ## Layout generator (src/components/MagicScene.tsx)

Constants from lines 9-17, the `items` memo (lines 340-505) and the
`allItems` memo (lines 507-535).  `Math.random()` is an oracle
`g : ℕ → ℚ`; draw indices follow the code's sequential consumption:
ornament `i` uses draws `9*i .. 9*i+8`, foil `i` uses
`2700 + 10*i ..`, the white ribbon, blue ribbon and light strip three
draws per particle starting at offsets 4700, 5900 and 7100.  The photo
subset is regenerated whenever the collection changes, consuming fresh
draws, so it reads from its own oracle (one draw per photo). -/

def TREE_HEIGHT : ℚ := 16
def TREE_RADIUS_BASE : ℚ := 6
def ORNAMENT_COUNT : ℕ := 300
def FOIL_COUNT : ℕ := 200
def RIBBON_PARTICLE_COUNT : ℕ := 400
def LIGHT_COUNT : ℕ := 100
def SCATTER_RADIUS_X : ℚ := 45
def SCATTER_RADIUS_Y : ℚ := 25
def SCATTER_RADIUS_Z : ℚ := 20

def PALETTE_RED : String := "#C41E3A"
def PALETTE_GOLD : String := "#FFD700"
def PALETTE_METALLIC_GOLD : String := "#CFB53B"
def PALETTE_SILVER : String := "#E0E0E0"
def PALETTE_GREEN : String := "#1B4D3E"
def PALETTE_CREAM : String := "#F2E8C9"
def PALETTE_LIGHT_WARM : String := "#ffddaa"
def PALETTE_DEEP_BLUE : String := "#0033FF"

/-- `ItemType` from `src/types.ts`. -/
inductive ItemType
  | sphere
  | box
  | photo
  | star
deriving DecidableEq

/-- `SceneItem` from `src/types.ts`.  Cartesian poses live in `ℝ` since
they involve cosines of irrational angles; rotation seeds and scale are
rational. -/
structure SceneItem where
  id : String
  type : ItemType
  treePos : ℝ × ℝ × ℝ
  scatterPos : ℝ × ℝ × ℝ
  rotation : ℚ × ℚ × ℚ
  color : Option String
  textureUrl : Option String
  scale : ℚ

/-- The golden angle `π(3−√5)` (line 342). -/
noncomputable def goldenAngle : ℝ := Real.pi * (3 - Real.sqrt 5)

/-- `layers = 5` (line 343). -/
def layers : ℚ := 5

/-- JavaScript `x % 1` for a nonnegative operand: the fractional part.
Every `%` in the generator is applied to a nonnegative value. -/
def jsMod1 (x : ℚ) : ℚ := x - ⌊x⌋

/-- The ornament color pool (lines 361-366), indexed by
`Math.floor(Math.random() * colors.length)`. -/
def ornamentColors : List String :=
  [PALETTE_RED, PALETTE_GREEN, PALETTE_METALLIC_GOLD, PALETTE_SILVER]

/-- Bulk ornament `i` of the `items` memo (lines 346-377).  Draws
`9*i .. 9*i+8` are, in code order: scatter x, y, z, the box/sphere
choice, the three rotation seeds, the color pick, and the scale. -/
noncomputable def ornamentItem (g : ℕ → ℚ) (i : ℕ) : SceneItem :=
  let h_norm : ℚ := i / ORNAMENT_COUNT
  let h : ℚ := h_norm * TREE_HEIGHT - TREE_HEIGHT / 2
  let layerPhase : ℚ := jsMod1 (h_norm * layers)
  let baseRadius : ℚ := (1 - h_norm) * TREE_RADIUS_BASE
  let layerKick : ℚ := (1 - layerPhase) * (3 / 2)
  let r : ℚ := baseRadius + layerKick
  let theta : ℝ := i * goldenAngle
  { id := "ornament-" ++ natStr i
    type := if g (9 * i + 3) > 6 / 10 then .box else .sphere
    treePos := ((r : ℝ) * Real.cos theta, (h : ℝ), (r : ℝ) * Real.sin theta)
    scatterPos :=
      (((g (9 * i) - 1 / 2) * SCATTER_RADIUS_X * 2 : ℚ),
       ((g (9 * i + 1) - 1 / 2) * SCATTER_RADIUS_Y * 2 : ℚ),
       ((g (9 * i + 2) - 1 / 2) * SCATTER_RADIUS_Z * 2 : ℚ))
    rotation := (g (9 * i + 4), g (9 * i + 5), g (9 * i + 6))
    color := some (ornamentColors.getD (randomIndex (g (9 * i + 7)) 4) PALETTE_RED)
    textureUrl := none
    scale := g (9 * i + 8) * (6 / 10) + 3 / 10 }

/-- Foil flake `i` (lines 380-404).  Draws `2700 + 10*i ..` in code
order: the height jitter, the radius jitter, scatter x, y, z, the three
rotation seeds, the gold/silver choice, and the scale. -/
noncomputable def foilItem (g : ℕ → ℚ) (i : ℕ) : SceneItem :=
  let d : ℕ := 2700 + 10 * i
  let h_norm : ℚ := i / FOIL_COUNT
  let h : ℚ := h_norm * TREE_HEIGHT - TREE_HEIGHT / 2 + (g d * 2 - 1)
  let baseRadius : ℚ := (1 - h_norm) * TREE_RADIUS_BASE
  let r : ℚ := baseRadius + g (d + 1) * (3 / 2) + 1 / 2
  let theta : ℝ := i * goldenAngle * 2
  { id := "foil-" ++ natStr i
    type := .box
    treePos := ((r : ℝ) * Real.cos theta, (h : ℝ), (r : ℝ) * Real.sin theta)
    scatterPos :=
      (((g (d + 2) - 1 / 2) * SCATTER_RADIUS_X * (22 / 10) : ℚ),
       ((g (d + 3) - 1 / 2) * SCATTER_RADIUS_Y * (22 / 10) : ℚ),
       ((g (d + 4) - 1 / 2) * SCATTER_RADIUS_Z * (3 / 2) : ℚ))
    rotation := (g (d + 5), g (d + 6), g (d + 7))
    color := some (if g (d + 8) > 4 / 10 then PALETTE_METALLIC_GOLD else PALETTE_SILVER)
    textureUrl := none
    scale := g (d + 9) * (4 / 10) + 1 / 5 }

/-- `ribbonSpirals = 5`, `braidFreq = 30`, `braidAmp = 0.4`
(lines 407-409). -/
def ribbonSpirals : ℚ := 5
def braidFreq : ℚ := 30
def braidAmp : ℚ := 4 / 10

/-- White braided ribbon particle `i` (lines 411-441).  Draws
`4700 + 3*i ..`: scatter x, y, z. -/
noncomputable def ribbonWhiteItem (g : ℕ → ℚ) (i : ℕ) : SceneItem :=
  let d : ℕ := 4700 + 3 * i
  let t : ℚ := i / RIBBON_PARTICLE_COUNT
  let h : ℚ := t * TREE_HEIGHT - TREE_HEIGHT / 2
  let layerPhase : ℚ := jsMod1 (t * layers)
  let baseRadius : ℚ := (1 - t) * TREE_RADIUS_BASE
  let layerKick : ℚ := (1 - layerPhase) * (18 / 10)
  let r : ℚ := baseRadius + layerKick + 13 / 10
  let baseTheta : ℝ := (t : ℝ) * Real.pi * 2 * (ribbonSpirals : ℝ)
  let theta : ℝ := baseTheta + Real.sin ((t : ℝ) * (braidFreq : ℝ)) * (braidAmp : ℝ)
  { id := "ribbon-white-" ++ natStr i
    type := .box
    treePos := ((r : ℝ) * Real.cos theta, (h : ℝ), (r : ℝ) * Real.sin theta)
    scatterPos :=
      (((g d - 1 / 2) * SCATTER_RADIUS_X * (5 / 2) : ℚ),
       ((g (d + 1) - 1 / 2) * SCATTER_RADIUS_Y * 2 : ℚ),
       ((g (d + 2) - 1 / 2) * SCATTER_RADIUS_Z : ℚ))
    rotation := (t, t, 0)
    color := some "#FFFFFF"
    textureUrl := none
    scale := 28 / 100 }

/-- Blue interlaced ribbon particle `i` (lines 444-474).  Draws
`5900 + 3*i ..`: scatter x, y, z. -/
noncomputable def ribbonBlueItem (g : ℕ → ℚ) (i : ℕ) : SceneItem :=
  let d : ℕ := 5900 + 3 * i
  let t : ℚ := i / RIBBON_PARTICLE_COUNT
  let h : ℚ := t * TREE_HEIGHT - TREE_HEIGHT / 2
  let layerPhase : ℚ := jsMod1 (t * layers)
  let baseRadius : ℚ := (1 - t) * TREE_RADIUS_BASE
  let layerKick : ℚ := (1 - layerPhase) * (18 / 10)
  let r : ℚ := baseRadius + layerKick + 1 / 2
  let baseTheta : ℝ := (t : ℝ) * Real.pi * 2 * (ribbonSpirals : ℝ)
  let theta : ℝ := baseTheta - Real.sin ((t : ℝ) * (braidFreq : ℝ)) * (braidAmp : ℝ)
  { id := "ribbon-blue-" ++ natStr i
    type := .box
    treePos := ((r : ℝ) * Real.cos theta, (h : ℝ), (r : ℝ) * Real.sin theta)
    scatterPos :=
      (((g d - 1 / 2) * SCATTER_RADIUS_X * (5 / 2) : ℚ),
       ((g (d + 1) - 1 / 2) * SCATTER_RADIUS_Y * 2 : ℚ),
       ((g (d + 2) - 1 / 2) * SCATTER_RADIUS_Z : ℚ))
    rotation := (t, t, 10)
    color := some PALETTE_DEEP_BLUE
    textureUrl := none
    scale := 3 / 10 }

/-- `lightSpirals = 4` (line 477). -/
def lightSpirals : ℚ := 4

/-- Light-strip sphere `i` (lines 478-502).  Draws `7100 + 3*i ..`:
scatter x, y, z. -/
noncomputable def lightItem (g : ℕ → ℚ) (i : ℕ) : SceneItem :=
  let d : ℕ := 7100 + 3 * i
  let t : ℚ := i / LIGHT_COUNT
  let h : ℚ := t * TREE_HEIGHT - TREE_HEIGHT / 2
  let layerPhase : ℚ := jsMod1 (t * layers)
  let baseRadius : ℚ := (1 - t) * TREE_RADIUS_BASE
  let layerKick : ℚ := (1 - layerPhase) * (16 / 10)
  let r : ℚ := baseRadius + layerKick + 1 / 5
  let theta : ℝ := (t : ℝ) * Real.pi * 2 * (lightSpirals : ℝ) + Real.pi
  { id := "light-" ++ natStr i
    type := .sphere
    treePos := ((r : ℝ) * Real.cos theta, (h : ℝ), (r : ℝ) * Real.sin theta)
    scatterPos :=
      (((g d - 1 / 2) * SCATTER_RADIUS_X * 2 : ℚ),
       ((g (d + 1) - 1 / 2) * SCATTER_RADIUS_Y * 2 : ℚ),
       ((g (d + 2) - 1 / 2) * SCATTER_RADIUS_Z : ℚ))
    rotation := (0, 0, 0)
    color := some PALETTE_LIGHT_WARM
    textureUrl := none
    scale := 1 / 5 }

/-- The `items` memo (lines 340-505): the five non-photo subsets,
generated once at startup (its dependency array is empty). -/
noncomputable def items (g : ℕ → ℚ) : List SceneItem :=
  ((List.range ORNAMENT_COUNT).map (ornamentItem g))
    ++ ((List.range FOIL_COUNT).map (foilItem g))
    ++ ((List.range RIBBON_PARTICLE_COUNT).map (ribbonWhiteItem g))
    ++ ((List.range RIBBON_PARTICLE_COUNT).map (ribbonBlueItem g))
    ++ ((List.range LIGHT_COUNT).map (lightItem g))

/-- Photo panel `i` of the `allItems` memo (lines 508-533), for a
collection of `n` photos.  `photos.length || 1` is `max n 1`.  One draw
per photo: the vertical scatter jitter. -/
noncomputable def photoItem (gp : ℕ → ℚ) (n : ℕ) (i : ℕ) (url : String) : SceneItem :=
  let den : ℚ := max n 1
  let h : ℚ := (i / den) * (TREE_HEIGHT * (8 / 10)) - TREE_HEIGHT / 3
  let r : ℚ := (1 - (h + TREE_HEIGHT / 2) / TREE_HEIGHT) * (TREE_RADIUS_BASE + 2)
  let theta : ℝ := (i : ℝ) * (Real.pi * 2 / (den : ℝ)) + 1
  let scatterRadius : ℚ := 12
  let scatterAngle : ℝ := ((i : ℚ) / den : ℚ) * Real.pi * 2
  { id := photoId i
    type := .photo
    treePos := ((r : ℝ) * Real.cos theta, (h : ℝ), (r : ℝ) * Real.sin theta)
    scatterPos :=
      (Real.cos scatterAngle * (scatterRadius : ℝ),
       ((gp i - 1 / 2) * 16 : ℚ),
       Real.sin scatterAngle * (scatterRadius : ℝ))
    rotation := (0, 0, 0)
    color := some PALETTE_CREAM
    textureUrl := some url
    scale := 1 }

/-- The photo subset of `allItems`: `photos.map((url, i) => ...)`. -/
noncomputable def photoItems (gp : ℕ → ℚ) (photos : List String) : List SceneItem :=
  (photos.enum.map fun iu => photoItem gp photos.length iu.1 iu.2)

/-- The `allItems` memo (lines 507-535): the startup subsets followed by
the photo subset regenerated from the current collection. -/
noncomputable def allItems (g gp : ℕ → ℚ) (photos : List String) : List SceneItem :=
  items g ++ photoItems gp photos

/-- The random oracle contract: every `Math.random()` draw lies in
`[0, 1)`. -/
def ValidDraws (g : ℕ → ℚ) : Prop := ∀ n, 0 ≤ g n ∧ g n < 1

/-- The assembled pose the claim ascribes to bulk ornament `i`, written
from the spec's formulas: height `(i/300)·16 − 8`, angle `i·π(3−√5)`,
radius `(1 − i/300)·6 + (1 − ((i/300)·5 mod 1))·1.5`, position
`(r·cos θ, h, r·sin θ)`. -/
noncomputable def specOrnamentAssembledPose (i : ℕ) : ℝ × ℝ × ℝ :=
  let h : ℚ := (i / 300) * 16 - 8
  let theta : ℝ := i * (Real.pi * (3 - Real.sqrt 5))
  let r : ℚ := (1 - i / 300) * 6 + (1 - jsMod1 ((i / 300) * 5)) * (3 / 2)
  ((r : ℝ) * Real.cos theta, (h : ℝ), (r : ℝ) * Real.sin theta)

/-! ## Helper lemmas -/

theorem natDigitsAux_eq_digits_reverse (fuel n : ℕ) (h : n ≤ fuel) :
    natDigitsAux fuel n = (Nat.digits 10 n).reverse := by
  induction fuel generalizing n with
  | zero =>
    have : n = 0 := Nat.le_zero.mp h
    subst this
    simp [natDigitsAux]
  | succ fuel ih =>
    cases n with
    | zero => simp [natDigitsAux]
    | succ m =>
      rw [natDigitsAux, ih ((m + 1) / 10)
            (by
              have : (m + 1) / 10 < m + 1 := Nat.div_lt_self (Nat.succ_pos m) (by norm_num)
              omega),
          Nat.digits_def' (by norm_num : (1 : ℕ) < 10) (Nat.succ_pos m)]
      simp

theorem map_digitChar_inj (l1 : List ℕ) :
    ∀ l2 : List ℕ, (∀ d ∈ l1, d < 10) → (∀ d ∈ l2, d < 10) →
      l1.map Nat.digitChar = l2.map Nat.digitChar → l1 = l2 := by
  have hfin : ∀ a b : Fin 10, Nat.digitChar a.val = Nat.digitChar b.val → a = b := by decide
  induction l1 with
  | nil => intro l2 _ _ h; cases l2 <;> simp_all
  | cons d ds ih =>
    intro l2 h1 h2 h
    cases l2 with
    | nil => simp at h
    | cons e es =>
      simp only [List.map_cons, List.cons.injEq] at h
      have hd : d < 10 := h1 d (List.mem_cons_self d ds)
      have he : e < 10 := h2 e (List.mem_cons_self e es)
      have : (⟨d, hd⟩ : Fin 10) = ⟨e, he⟩ := hfin _ _ h.1
      have hde : d = e := congrArg Fin.val this
      have hrest : ds = es :=
        ih es (fun x hx => h1 x (List.mem_cons_of_mem d hx))
          (fun x hx => h2 x (List.mem_cons_of_mem e hx)) h.2
      rw [hde, hrest]

theorem natStr_eq_zero_str {n : ℕ} (h : natStr n = "0") : n = 0 := by
  by_contra hn
  unfold natStr at h
  rw [if_neg hn, natDigitsAux_eq_digits_reverse n n le_rfl] at h
  have h' : List.map Nat.digitChar (Nat.digits 10 n).reverse = ['0'] := by
    have := congrArg String.data h
    simpa [List.asString] using this
  cases hL : (Nat.digits 10 n).reverse with
  | nil => rw [hL] at h'; simp at h'
  | cons d ds =>
    rw [hL] at h'
    simp only [List.map_cons, List.cons.injEq] at h'
    have hds : ds = [] := by
      have := h'.2
      cases ds with
      | nil => rfl
      | cons a l => simp at this
    have hmem : d ∈ Nat.digits 10 n := by
      have : d ∈ (Nat.digits 10 n).reverse := by rw [hL]; exact List.mem_cons_self d ds
      exact List.mem_reverse.mp this
    have hd10 : d < 10 := Nat.digits_lt_base (by norm_num) hmem
    have hd0 : d = 0 := by
      have hfin : ∀ a : Fin 10, Nat.digitChar a.val = '0' → a.val = 0 := by decide
      exact hfin ⟨d, hd10⟩ h'.1
    have hdig : Nat.digits 10 n = [0] := by
      rw [← List.reverse_reverse (Nat.digits 10 n), hL, hds, hd0]
      rfl
    have hzero : n = 0 := by
      have hof := Nat.ofDigits_digits 10 n
      rw [hdig] at hof
      simpa [Nat.ofDigits] using hof.symm
    exact hn hzero

theorem natStr_inj : Function.Injective natStr := by
  intro m n h
  have digits10 : ∀ k : ℕ, ∀ d ∈ Nat.digits 10 k, d < 10 := fun k d hd =>
    Nat.digits_lt_base (by norm_num) hd
  by_cases hm : m = 0 <;> by_cases hn : n = 0
  · rw [hm, hn]
  · exfalso
    rw [hm] at h
    exact hn (natStr_eq_zero_str h.symm)
  · exfalso
    rw [hn] at h
    exact hm (natStr_eq_zero_str h)
  · unfold natStr at h
    rw [if_neg hm, if_neg hn, natDigitsAux_eq_digits_reverse m m le_rfl,
        natDigitsAux_eq_digits_reverse n n le_rfl] at h
    have h' : ((Nat.digits 10 m).reverse.map Nat.digitChar)
        = ((Nat.digits 10 n).reverse.map Nat.digitChar) := by
      have := congrArg String.data h
      simpa [List.asString] using this
    have hrev : (Nat.digits 10 m).reverse = (Nat.digits 10 n).reverse :=
      map_digitChar_inj _ _ (fun d hd => digits10 m d (List.mem_reverse.mp hd))
        (fun d hd => digits10 n d (List.mem_reverse.mp hd)) h'
    have hdig : Nat.digits 10 m = Nat.digits 10 n := by
      have := congrArg List.reverse hrev
      simpa using this
    calc m = Nat.ofDigits 10 (Nat.digits 10 m) := (Nat.ofDigits_digits 10 m).symm
    _ = Nat.ofDigits 10 (Nat.digits 10 n) := by rw [hdig]
    _ = n := Nat.ofDigits_digits 10 n

theorem photoId_inj : Function.Injective photoId := by
  intro m n h
  unfold photoId at h
  have hdata := congrArg String.data h
  rw [String.data_append, String.data_append] at hdata
  have : (natStr m).data = (natStr n).data := List.append_cancel_left hdata
  exact natStr_inj (String.ext this)

theorem append_ne_of_head_ne (a x b y : String) (ca cb : Char)
    (ha : a.data.head? = some ca) (hb : b.data.head? = some cb) (hc : ca ≠ cb) :
    a ++ x ≠ b ++ y := by
  intro h
  have hdata := congrArg String.data h
  rw [String.data_append, String.data_append] at hdata
  cases hda : a.data with
  | nil => rw [hda] at ha; simp at ha
  | cons c cs =>
    cases hdb : b.data with
    | nil => rw [hdb] at hb; simp at hb
    | cons c' cs' =>
      rw [hda] at ha
      rw [hdb] at hb
      simp at ha hb
      rw [hda, hdb] at hdata
      simp at hdata
      refine hc ?_
      rw [← ha, ← hb]
      exact hdata.1

theorem randomIndex_lt {rnd : ℚ} {n : ℕ} (h0 : 0 ≤ rnd) (h1 : rnd < 1) (hn : 0 < n) :
    randomIndex rnd n < n := by
  unfold randomIndex
  have hnn : (0 : ℚ) < n := by exact_mod_cast hn
  have hub : rnd * n < n := by
    calc rnd * (n : ℚ) < 1 * n := by exact mul_lt_mul_of_pos_right h1 hnn
    _ = n := one_mul _
  have hfl : ⌊rnd * (n : ℚ)⌋ < (n : ℤ) := Int.floor_lt.mpr (by exact_mod_cast hub)
  have hge : 0 ≤ ⌊rnd * (n : ℚ)⌋ := Int.floor_nonneg.mpr (mul_nonneg h0 (le_of_lt hnn))
  omega

theorem randomIndex_surj {n : ℕ} (k : ℕ) (hk : k < n) :
    ∃ r : ℚ, 0 ≤ r ∧ r < 1 ∧ randomIndex r n = k := by
  have hn : (0 : ℚ) < n := by exact_mod_cast lt_of_le_of_lt (Nat.zero_le k) hk
  refine ⟨(k : ℚ) / n, div_nonneg (Nat.cast_nonneg k) (le_of_lt hn), ?_, ?_⟩
  · rw [div_lt_one hn]
    exact_mod_cast hk
  · unfold randomIndex
    rw [div_mul_cancel₀ _ (ne_of_gt hn)]
    simp

/-! ## Claim theorems -/

/-- Claim C9: when no hand is detected (the landmark list absent or
empty), `onResults` emits the all-false neutral signal with hand
position `(0.5, 0.5)`, and does so totally (no error path). -/
theorem claim_C9_no_hand_neutral :
    onResults none = neutralGesture
    ∧ onResults (some ([] : List Frame)) = neutralGesture
    ∧ neutralGesture.isFist = false
    ∧ neutralGesture.isOpen = false
    ∧ neutralGesture.isPinching = false
    ∧ neutralGesture.isPointing = false
    ∧ neutralGesture.handPosition = (1 / 2, 1 / 2) := by
  refine ⟨rfl, rfl, rfl, rfl, rfl, rfl, rfl⟩

/-- Claim C10: on every landmark frame at most one of the classifier's
`isFist`, `isOpen`, `isPointing` flags is true — they are pairwise
mutually exclusive because their strict inequalities on shared landmark
pairs cannot hold in both directions at once. -/
theorem claim_C10_flags_exclusive (lm : Frame) :
    (detectFist lm).toNat + (detectOpenPalm lm).toNat + (detectPointing lm).toNat ≤ 1 := by
  have hfo : ¬(detectFist lm = true ∧ detectOpenPalm lm = true) := by
    rintro ⟨hf, ho⟩
    unfold detectFist at hf
    unfold detectOpenPalm at ho
    simp only [List.all_cons, List.all_nil, Bool.and_eq_true, Bool.and_true,
      decide_eq_true_eq] at hf ho
    linarith [hf.1, ho.1]
  have hfp : ¬(detectFist lm = true ∧ detectPointing lm = true) := by
    rintro ⟨hf, hp⟩
    unfold detectFist at hf
    unfold detectPointing at hp
    simp only [List.all_cons, List.all_nil, Bool.and_eq_true, Bool.and_true,
      decide_eq_true_eq] at hf hp
    linarith [hf.1, hp.1.1.1]
  have hop : ¬(detectOpenPalm lm = true ∧ detectPointing lm = true) := by
    rintro ⟨ho, hp⟩
    unfold detectOpenPalm at ho
    unfold detectPointing at hp
    simp only [List.all_cons, List.all_nil, Bool.and_eq_true, Bool.and_true,
      decide_eq_true_eq] at ho hp
    linarith [ho.2.1, hp.1.1.2]
  cases hf : detectFist lm <;> cases ho : detectOpenPalm lm <;>
    cases hp : detectPointing lm <;> simp_all

/-- Claim C1: a processed gesture signal (one that is not suppressed by
the cooldown) with `isFist = true` always produces mode ASSEMBLED
(`TREE`), a null focus and a cleared delete confirmation, whatever the
prior mode/focus and whatever the other flags say. -/
theorem claim_C1_fist_resets (now : ℤ) (data : HandGestureData) (rnd : ℚ)
    (s : MachineState) (hcool : ¬now < s.gestureCooldown)
    (hfist : data.isFist = true) :
    (handleGesture now data rnd s).appState = AppState.TREE
    ∧ (handleGesture now data rnd s).focusId = none
    ∧ (handleGesture now data rnd s).deleteConfirm = false := by
  unfold handleGesture
  rw [if_neg hcool]
  simp [hfist]

/-- Witness for C1: fired from FOCUSED with all four flags raised. -/
theorem claim_C1_fist_resets_witness :
    (handleGesture 5 ⟨true, true, true, true, (0, 0)⟩ 0
        { appState := .INSPECT, focusId := some "photo-1", deleteConfirm := true,
          wasPointing := true, gestureCooldown := 3, photos := ["a"] }).appState
      = AppState.TREE
    ∧ (handleGesture 5 ⟨true, true, true, true, (0, 0)⟩ 0
        { appState := .INSPECT, focusId := some "photo-1", deleteConfirm := true,
          wasPointing := true, gestureCooldown := 3, photos := ["a"] }).focusId = none
    ∧ (handleGesture 5 ⟨true, true, true, true, (0, 0)⟩ 0
        { appState := .INSPECT, focusId := some "photo-1", deleteConfirm := true,
          wasPointing := true, gestureCooldown := 3, photos := ["a"] }).deleteConfirm
      = false :=
  claim_C1_fist_resets 5 ⟨true, true, true, true, (0, 0)⟩ 0 _ (by decide) rfl

/-- Claim C2: while the current time is strictly before the cooldown
deadline, a gesture tick is a no-op on the whole machine state (so mode
and focus in particular), and a whole sequence of such ticks — all
arriving before the deadline — leaves the state unchanged. -/
theorem claim_C2_cooldown_suppresses :
    (∀ (now : ℤ) (data : HandGestureData) (rnd : ℚ) (s : MachineState),
      now < s.gestureCooldown → handleGesture now data rnd s = s)
    ∧ (∀ (ticks : List (ℤ × HandGestureData × ℚ)) (s : MachineState),
      (∀ tk ∈ ticks, tk.1 < s.gestureCooldown) → runGestures ticks s = s) := by
  have h1 : ∀ (now : ℤ) (data : HandGestureData) (rnd : ℚ) (s : MachineState),
      now < s.gestureCooldown → handleGesture now data rnd s = s := by
    intro now data rnd s h
    unfold handleGesture
    rw [if_pos h]
  refine ⟨h1, ?_⟩
  intro ticks
  induction ticks with
  | nil => intro s _; rfl
  | cons tk rest ih =>
    intro s h
    have hhead : handleGesture tk.1 tk.2.1 tk.2.2 s = s :=
      h1 tk.1 tk.2.1 tk.2.2 s (h tk (List.mem_cons_self tk rest))
    have : runGestures (tk :: rest) s = runGestures rest (handleGesture tk.1 tk.2.1 tk.2.2 s) :=
      rfl
    rw [this, hhead]
    exact ih s fun tk' h' => h tk' (List.mem_cons_of_mem tk h')

/-- Witness for C2: two early ticks (one of them a fist) before a
deadline of 100 change nothing. -/
theorem claim_C2_cooldown_suppresses_witness :
    handleGesture 5 ⟨true, false, false, false, (0, 0)⟩ 0
        { appState := .INSPECT, focusId := some "photo-0", deleteConfirm := false,
          wasPointing := false, gestureCooldown := 100, photos := ["a"] }
      = { appState := .INSPECT, focusId := some "photo-0", deleteConfirm := false,
          wasPointing := false, gestureCooldown := 100, photos := ["a"] }
    ∧ runGestures
        [(5, ⟨true, false, false, false, (0, 0)⟩, 0),
         (99, ⟨false, false, false, true, (0, 0)⟩, 1 / 2)]
        { appState := .INSPECT, focusId := some "photo-0", deleteConfirm := false,
          wasPointing := false, gestureCooldown := 100, photos := ["a"] }
      = { appState := .INSPECT, focusId := some "photo-0", deleteConfirm := false,
          wasPointing := false, gestureCooldown := 100, photos := ["a"] } := by
  constructor
  · exact claim_C2_cooldown_suppresses.1 5 ⟨true, false, false, false, (0, 0)⟩ 0 _ (by decide)
  · refine claim_C2_cooldown_suppresses.2 _ _ ?_
    intro tk htk
    simp only [List.mem_cons, List.not_mem_nil, or_false] at htk
    rcases htk with h | h <;> rw [h] <;> decide

/-- Claim C3: a processed pointing tick (no fist) with photos present
either re-randomizes — when the prior mode is not FOCUSED (`INSPECT`) or
the point is fresh — setting mode FOCUSED and focus `photo-k` where
`k = ⌊rnd·photoCount⌋` lies in `[0, photoCount)`, or — when already
FOCUSED on a sustained point — keeps mode FOCUSED and the focus
unchanged.  Every index below the photo count is realizable by some
draw, matching the uniform choice of `Math.floor(Math.random()*n)`. -/
theorem claim_C3_pointing_selection :
    (∀ (now : ℤ) (data : HandGestureData) (rnd : ℚ) (s : MachineState),
      ¬now < s.gestureCooldown → data.isFist = false → data.isPointing = true →
      0 < s.photos.length → 0 ≤ rnd → rnd < 1 →
      (s.appState ≠ AppState.INSPECT ∨ s.wasPointing = false) →
      (handleGesture now data rnd s).appState = AppState.INSPECT
      ∧ (handleGesture now data rnd s).focusId
          = some (photoId (randomIndex rnd s.photos.length))
      ∧ randomIndex rnd s.photos.length < s.photos.length)
    ∧ (∀ (now : ℤ) (data : HandGestureData) (rnd : ℚ) (s : MachineState),
      ¬now < s.gestureCooldown → data.isFist = false → data.isPointing = true →
      0 < s.photos.length → s.appState = AppState.INSPECT → s.wasPointing = true →
      (handleGesture now data rnd s).appState = AppState.INSPECT
      ∧ (handleGesture now data rnd s).focusId = s.focusId)
    ∧ (∀ n k : ℕ, k < n → ∃ r : ℚ, 0 ≤ r ∧ r < 1 ∧ randomIndex r n = k) := by
  refine ⟨?_, ?_, fun n k hk => randomIndex_surj k hk⟩
  · intro now data rnd s hcool hfist hpoint hn h0 h1 hsel
    have heq : handleGesture now data rnd s
        = { s with
              wasPointing := data.isPointing
              focusId := some (photoId (randomIndex rnd s.photos.length))
              deleteConfirm := false
              appState := .INSPECT } := by
      unfold handleGesture
      rw [if_neg hcool]
      rcases hsel with hmode | hwp
      · simp [hfist, hpoint, hn, hmode]
      · simp [hfist, hpoint, hn, hwp]
    rw [heq]
    exact ⟨rfl, rfl, randomIndex_lt h0 h1 hn⟩
  · intro now data rnd s hcool hfist hpoint hn hmode hwp
    have heq : handleGesture now data rnd s
        = { s with
              wasPointing := data.isPointing
              appState := .INSPECT } := by
      unfold handleGesture
      rw [if_neg hcool]
      simp [hfist, hpoint, hn, hmode, hwp]
    rw [heq]
    exact ⟨rfl, rfl⟩

/-- Witness for C3: a fresh point over two photos with draw `1/2` picks
`photo-1`; a sustained point from FOCUSED keeps the focus; index 2 of 3
is realizable. -/
theorem claim_C3_pointing_selection_witness :
    ((handleGesture 5 ⟨false, false, false, true, (0, 0)⟩ (1 / 2)
        { appState := .TREE, focusId := none, deleteConfirm := false,
          wasPointing := false, gestureCooldown := 0, photos := ["a", "b"] }).appState
      = AppState.INSPECT
    ∧ (handleGesture 5 ⟨false, false, false, true, (0, 0)⟩ (1 / 2)
        { appState := .TREE, focusId := none, deleteConfirm := false,
          wasPointing := false, gestureCooldown := 0, photos := ["a", "b"] }).focusId
      = some (photoId (randomIndex (1 / 2) 2))
    ∧ randomIndex (1 / 2) 2 < 2)
    ∧ ((handleGesture 5 ⟨false, false, false, true, (0, 0)⟩ (1 / 2)
        { appState := .INSPECT, focusId := some "photo-0", deleteConfirm := false,
          wasPointing := true, gestureCooldown := 0, photos := ["a", "b"] }).appState
      = AppState.INSPECT
    ∧ (handleGesture 5 ⟨false, false, false, true, (0, 0)⟩ (1 / 2)
        { appState := .INSPECT, focusId := some "photo-0", deleteConfirm := false,
          wasPointing := true, gestureCooldown := 0, photos := ["a", "b"] }).focusId
      = some "photo-0")
    ∧ (∃ r : ℚ, 0 ≤ r ∧ r < 1 ∧ randomIndex r 3 = 2) := by
  refine ⟨?_, ?_, claim_C3_pointing_selection.2.2 3 2 (by decide)⟩
  · exact claim_C3_pointing_selection.1 5 ⟨false, false, false, true, (0, 0)⟩ (1 / 2) _
      (by decide) rfl rfl (by decide) (by norm_num) (by norm_num) (Or.inl (by decide))
  · exact claim_C3_pointing_selection.2.1 5 ⟨false, false, false, true, (0, 0)⟩ (1 / 2) _
      (by decide) rfl rfl (by decide) rfl rfl

/-- Claim C4: from DISPERSED (`SCATTER`), with only `isPinching` raised
and at least one photo present, a processed tick lands in FOCUSED
(`INSPECT`); a null focus is replaced by the default id `photo-0`, a
non-null focus is kept unchanged. -/
theorem claim_C4_pinch_fallback (now : ℤ) (data : HandGestureData) (rnd : ℚ)
    (s : MachineState) (hcool : ¬now < s.gestureCooldown)
    (hfist : data.isFist = false) (hopen : data.isOpen = false)
    (hpoint : data.isPointing = false) (hpinch : data.isPinching = true)
    (hmode : s.appState = AppState.SCATTER) (hnp : 0 < s.photos.length) :
    ((s.focusId = none →
        (handleGesture now data rnd s).appState = AppState.INSPECT
        ∧ (handleGesture now data rnd s).focusId = some (photoId 0))
      ∧ (s.focusId ≠ none →
        (handleGesture now data rnd s).appState = AppState.INSPECT
        ∧ (handleGesture now data rnd s).focusId = s.focusId)) := by
  unfold handleGesture
  rw [if_neg hcool]
  simp only [hfist, hopen, hpoint, hpinch, hmode, Bool.false_eq_true, if_false,
    false_and, and_true, true_and]
  constructor
  · intro hfoc
    simp [hfoc, hnp]
  · intro hfoc
    simp [hfoc, hnp]

/-- Witness for C4: both branches exercised at concrete states. -/
theorem claim_C4_pinch_fallback_witness :
    ((handleGesture 5 ⟨false, false, true, false, (0, 0)⟩ 0
        { appState := .SCATTER, focusId := none, deleteConfirm := false,
          wasPointing := false, gestureCooldown := 0, photos := ["a"] }).appState
      = AppState.INSPECT
    ∧ (handleGesture 5 ⟨false, false, true, false, (0, 0)⟩ 0
        { appState := .SCATTER, focusId := none, deleteConfirm := false,
          wasPointing := false, gestureCooldown := 0, photos := ["a"] }).focusId
      = some (photoId 0))
    ∧ ((handleGesture 5 ⟨false, false, true, false, (0, 0)⟩ 0
        { appState := .SCATTER, focusId := some "photo-7", deleteConfirm := false,
          wasPointing := false, gestureCooldown := 0, photos := ["a"] }).appState
      = AppState.INSPECT
    ∧ (handleGesture 5 ⟨false, false, true, false, (0, 0)⟩ 0
        { appState := .SCATTER, focusId := some "photo-7", deleteConfirm := false,
          wasPointing := false, gestureCooldown := 0, photos := ["a"] }).focusId
      = some "photo-7") := by
  constructor
  · exact (claim_C4_pinch_fallback 5 ⟨false, false, true, false, (0, 0)⟩ 0 _
      (by decide) rfl rfl rfl rfl rfl (by decide)).1 rfl
  · exact (claim_C4_pinch_fallback 5 ⟨false, false, true, false, (0, 0)⟩ 0 _
      (by decide) rfl rfl rfl rfl rfl (by decide)).2 (by decide)

theorem blendStep_dist2 (t p : Vec3) (δ : ℚ) :
    dist2 (blendStep t p δ) t = (1 - δ * 3) ^ 2 * dist2 p t := by
  obtain ⟨p1, p2, p3⟩ := p
  obtain ⟨t1, t2, t3⟩ := t
  simp only [dist2, blendStep, vlerp]
  ring

theorem dist2_pos {p t : Vec3} (h : p ≠ t) : 0 < dist2 p t := by
  obtain ⟨p1, p2, p3⟩ := p
  obtain ⟨t1, t2, t3⟩ := t
  have hne : p1 ≠ t1 ∨ p2 ≠ t2 ∨ p3 ≠ t3 := by
    by_contra hall
    push_neg at hall
    exact h (by simp [hall.1, hall.2.1, hall.2.2])
  unfold dist2
  rcases hne with h1 | h2 | h3
  · have hp : 0 < (p1 - t1) ^ 2 :=
      lt_of_le_of_ne (sq_nonneg _) (Ne.symm (pow_ne_zero 2 (sub_ne_zero.mpr h1)))
    nlinarith [sq_nonneg (p2 - t2), sq_nonneg (p3 - t3)]
  · have hp : 0 < (p2 - t2) ^ 2 :=
      lt_of_le_of_ne (sq_nonneg _) (Ne.symm (pow_ne_zero 2 (sub_ne_zero.mpr h2)))
    nlinarith [sq_nonneg (p1 - t1), sq_nonneg (p3 - t3)]
  · have hp : 0 < (p3 - t3) ^ 2 :=
      lt_of_le_of_ne (sq_nonneg _) (Ne.symm (pow_ne_zero 2 (sub_ne_zero.mpr h3)))
    nlinarith [sq_nonneg (p1 - t1), sq_nonneg (p2 - t2)]

/-- Claim C6 counterexample: at elapsed delta exactly `1/3` the blend
step `p + (t − p)·(3·delta)` lands exactly on the target — the squared
(hence the Euclidean) distance becomes exactly zero — refuting the
claim's assertion that every tick with `delta > 0` leaves the distance
nonzero. -/
theorem claim_C6_counterexample :
    ((1, 0, 0) : Vec3) ≠ (0, 0, 0)
    ∧ (0 : ℚ) < 1 / 3
    ∧ dist2 (blendStep (0, 0, 0) (1, 0, 0) (1 / 3)) (0, 0, 0) = 0 := by
  refine ⟨by decide, by norm_num, by norm_num [dist2, blendStep, vlerp]⟩

/-- Claim C6 amended: for ticks with `0 < delta < 2/3` and
`delta ≠ 1/3`, the blend step strictly reduces the (squared, hence
Euclidean) distance to a constant target and never makes it exactly
zero; iterating over any finite sequence of such ticks keeps the
distance nonzero and, for a nonempty sequence, strictly below its
initial value. -/
theorem claim_C6_blend_converges :
    (∀ (p t : Vec3) (δ : ℚ), p ≠ t → 0 < δ → δ < 2 / 3 → δ ≠ 1 / 3 →
      dist2 (blendStep t p δ) t < dist2 p t ∧ dist2 (blendStep t p δ) t ≠ 0)
    ∧ (∀ (p t : Vec3) (ds : List ℚ), p ≠ t →
      (∀ δ ∈ ds, 0 < δ ∧ δ < 2 / 3 ∧ δ ≠ 1 / 3) →
      dist2 (blendRun t p ds) t ≠ 0
      ∧ (ds ≠ [] → dist2 (blendRun t p ds) t < dist2 p t)) := by
  have hstep : ∀ (p t : Vec3) (δ : ℚ), p ≠ t → 0 < δ → δ < 2 / 3 → δ ≠ 1 / 3 →
      dist2 (blendStep t p δ) t < dist2 p t ∧ dist2 (blendStep t p δ) t ≠ 0 := by
    intro p t δ hp h0 h2 h13
    have hd : 0 < dist2 p t := dist2_pos hp
    have hfactor1 : (1 - δ * 3) ^ 2 < 1 := by nlinarith [mul_pos h0 (by linarith : (0 : ℚ) < 2 / 3 - δ)]
    have hfactor0 : 0 < (1 - δ * 3) ^ 2 := by
      have hne : 1 - δ * 3 ≠ 0 := by
        intro hz
        exact h13 (by linarith)
      exact lt_of_le_of_ne (sq_nonneg _) (Ne.symm (pow_ne_zero 2 hne))
    rw [blendStep_dist2]
    constructor
    · nlinarith
    · exact ne_of_gt (mul_pos hfactor0 hd)
  refine ⟨hstep, ?_⟩
  intro p t ds
  induction ds generalizing p with
  | nil =>
    intro hp _
    exact ⟨ne_of_gt (dist2_pos hp), fun hne => absurd rfl hne⟩
  | cons δ rest ih =>
    intro hp hds
    obtain ⟨h0, h2, h13⟩ := hds δ (List.mem_cons_self δ rest)
    have hone := hstep p t δ hp h0 h2 h13
    have hq : blendStep t p δ ≠ t := by
      intro hzero
      refine hone.2 ?_
      rw [hzero]
      obtain ⟨t1, t2, t3⟩ := t
      simp [dist2]
    have hrest := ih (blendStep t p δ) hq
      (fun x hx => hds x (List.mem_cons_of_mem δ hx))
    have hbr : blendRun t p (δ :: rest) = blendRun t (blendStep t p δ) rest := rfl
    rw [hbr]
    refine ⟨hrest.1, fun _ => ?_⟩
    by_cases hre : rest = []
    · rw [hre]
      exact hone.1
    · exact lt_trans (hrest.2 hre) hone.1

/-- Witness for the amended C6: one tick of `delta = 1/6` from
`(1,0,0)` toward the origin, and the two-tick run `[1/6, 1/6]`. -/
theorem claim_C6_blend_converges_witness :
    (dist2 (blendStep (0, 0, 0) (1, 0, 0) (1 / 6)) (0, 0, 0)
        < dist2 ((1, 0, 0) : Vec3) (0, 0, 0)
    ∧ dist2 (blendStep (0, 0, 0) (1, 0, 0) (1 / 6)) (0, 0, 0) ≠ 0)
    ∧ (dist2 (blendRun (0, 0, 0) (1, 0, 0) [1 / 6, 1 / 6]) (0, 0, 0) ≠ 0
    ∧ ([(1 : ℚ) / 6, 1 / 6] ≠ [] →
      dist2 (blendRun (0, 0, 0) (1, 0, 0) [1 / 6, 1 / 6]) (0, 0, 0)
        < dist2 ((1, 0, 0) : Vec3) (0, 0, 0))) := by
  constructor
  · exact claim_C6_blend_converges.1 (1, 0, 0) (0, 0, 0) (1 / 6) (by decide)
      (by norm_num) (by norm_num) (by norm_num)
  · refine claim_C6_blend_converges.2 (1, 0, 0) (0, 0, 0) [1 / 6, 1 / 6] (by decide) ?_
    intro δ hδ
    simp only [List.mem_cons, List.not_mem_nil, or_false] at hδ
    rcases hδ with h | h <;> rw [h] <;> norm_num

theorem inv_step (e : Event) (s : MachineState)
    (h : s.focusId ≠ none → s.appState = AppState.INSPECT) :
    (step e s).focusId ≠ none → (step e s).appState = AppState.INSPECT := by
  cases e with
  | gesture now data rnd =>
    simp only [step, handleGesture]
    split_ifs <;> simp_all
  | select id => simp [step, handlePhotoSelect]
  | closeInspect now => simp [step, handleCloseInspect]
  | deleteClick now =>
    simp only [step, handleDeleteClick]
    split_ifs with h1
    · simp_all
    · cases hf : s.focusId with
      | none => simp_all
      | some fid =>
        cases hp : parsePhotoIndex fid with
        | none => simp_all
        | some idx => simp_all
  | confirmTimeout => simp_all [step]
  | upload urls =>
    simp only [step, handleFileUpload]
    split_ifs <;> simp_all

theorem exit_clears_focus (e : Event) (s : MachineState)
    (hmode : s.appState = AppState.INSPECT)
    (hexit : (step e s).appState ≠ AppState.INSPECT) :
    (step e s).focusId = none := by
  cases e with
  | gesture now data rnd =>
    simp only [step, handleGesture] at hexit ⊢
    split_ifs at hexit ⊢ <;> simp_all
  | select id => simp [step, handlePhotoSelect] at hexit
  | closeInspect now => simp [step, handleCloseInspect]
  | deleteClick now =>
    simp only [step, handleDeleteClick] at hexit ⊢
    split_ifs at hexit ⊢ with h1
    · simp_all
    · cases hf : s.focusId with
      | none => simp_all
      | some fid =>
        cases hp : parsePhotoIndex fid with
        | none => simp_all
        | some idx => simp_all
  | confirmTimeout => simp_all [step]
  | upload urls =>
    simp only [step, handleFileUpload] at hexit ⊢
    split_ifs at hexit ⊢ <;> simp_all

/-- Claim C5: in every state reachable from the initial state through
any sequence of gesture ticks, direct selections, close-inspect, delete
clicks, confirmation timeouts and uploads, a non-null focus implies mode
FOCUSED (`INSPECT`); and every single step that leaves FOCUSED also
leaves the focus null in that same step. -/
theorem claim_C5_focus_invariant :
    (∀ es : List Event,
      (runEvents es initState).focusId ≠ none →
      (runEvents es initState).appState = AppState.INSPECT)
    ∧ (∀ (e : Event) (s : MachineState), s.appState = AppState.INSPECT →
      (step e s).appState ≠ AppState.INSPECT → (step e s).focusId = none) := by
  constructor
  · have hrun : ∀ (es : List Event) (s : MachineState),
        (s.focusId ≠ none → s.appState = AppState.INSPECT) →
        ((runEvents es s).focusId ≠ none →
          (runEvents es s).appState = AppState.INSPECT) := by
      intro es
      induction es with
      | nil => intro s h; exact h
      | cons e rest ih => intro s h; exact ih (step e s) (inv_step e s h)
    intro es
    exact hrun es initState fun hne => absurd rfl hne
  · exact fun e s => exit_clears_focus e s

/-- Witness for C5: after a direct selection the focus is non-null and
the mode is FOCUSED; closing the inspection from FOCUSED leaves FOCUSED
and clears the focus in the same step. -/
theorem claim_C5_focus_invariant_witness :
    (runEvents [Event.select "photo-0"] initState).appState = AppState.INSPECT
    ∧ (step (Event.closeInspect 7)
        { appState := .INSPECT, focusId := some "photo-0", deleteConfirm := false,
          wasPointing := false, gestureCooldown := 0, photos := ["a"] }).focusId
      = none := by
  constructor
  · exact claim_C5_focus_invariant.1 [Event.select "photo-0"] (by decide)
  · exact claim_C5_focus_invariant.2 (Event.closeInspect 7) _ rfl (by decide)

/-- Claim C7: the assembled pose of bulk ornament `i < 300` equals the
claimed closed-form formula (height `(i/300)·16 − 8`, angle
`i·π(3−√5)`, radius `(1 − i/300)·6 + (1 − ((i/300)·5 mod 1))·1.5`,
position `(r·cos θ, h, r·sin θ)`), does not depend on the random oracle
(two generations agree at every index), and the dispersed pose is
bounded componentwise by the scatter radii `45`, `25`, `20`. -/
theorem claim_C7_ornament_layout (g g' : ℕ → ℚ) (hg : ValidDraws g) (i : ℕ)
    (_hi : i < ORNAMENT_COUNT) :
    (ornamentItem g i).treePos = specOrnamentAssembledPose i
    ∧ (ornamentItem g i).treePos = (ornamentItem g' i).treePos
    ∧ |(ornamentItem g i).scatterPos.1| ≤ 45
    ∧ |(ornamentItem g i).scatterPos.2.1| ≤ 25
    ∧ |(ornamentItem g i).scatterPos.2.2| ≤ 20 := by
  refine ⟨?_, rfl, ?_, ?_, ?_⟩
  · unfold ornamentItem specOrnamentAssembledPose goldenAngle
    simp only [ORNAMENT_COUNT, TREE_HEIGHT, TREE_RADIUS_BASE, layers]
    norm_num
  · obtain ⟨h0, h1⟩ := hg (9 * i)
    have hq : |(g (9 * i) - 1 / 2) * SCATTER_RADIUS_X * 2| ≤ 45 := by
      rw [abs_le]
      unfold SCATTER_RADIUS_X
      constructor <;> nlinarith
    simp only [ornamentItem]
    exact_mod_cast hq
  · obtain ⟨h0, h1⟩ := hg (9 * i + 1)
    have hq : |(g (9 * i + 1) - 1 / 2) * SCATTER_RADIUS_Y * 2| ≤ 25 := by
      rw [abs_le]
      unfold SCATTER_RADIUS_Y
      constructor <;> nlinarith
    simp only [ornamentItem]
    exact_mod_cast hq
  · obtain ⟨h0, h1⟩ := hg (9 * i + 2)
    have hq : |(g (9 * i + 2) - 1 / 2) * SCATTER_RADIUS_Z * 2| ≤ 20 := by
      rw [abs_le]
      unfold SCATTER_RADIUS_Z
      constructor <;> nlinarith
    simp only [ornamentItem]
    exact_mod_cast hq

/-- Witness for C7: index 0 under the constant-zero oracle against the
constant-half oracle. -/
theorem claim_C7_ornament_layout_witness :
    (ornamentItem (fun _ => 0) 0).treePos = specOrnamentAssembledPose 0
    ∧ (ornamentItem (fun _ => 0) 0).treePos
        = (ornamentItem (fun _ => (1 : ℚ) / 2) 0).treePos
    ∧ |(ornamentItem (fun _ => 0) 0).scatterPos.1| ≤ 45
    ∧ |(ornamentItem (fun _ => 0) 0).scatterPos.2.1| ≤ 25
    ∧ |(ornamentItem (fun _ => 0) 0).scatterPos.2.2| ≤ 20 :=
  claim_C7_ornament_layout (fun _ => 0) (fun _ => (1 : ℚ) / 2)
    (fun _ => ⟨le_rfl, by norm_num⟩) 0 (by norm_num [ORNAMENT_COUNT])

theorem ornamentItem_id (g : ℕ → ℚ) (i : ℕ) :
    (ornamentItem g i).id = "ornament-" ++ natStr i := rfl

theorem foilItem_id (g : ℕ → ℚ) (i : ℕ) :
    (foilItem g i).id = "foil-" ++ natStr i := rfl

theorem ribbonWhiteItem_id (g : ℕ → ℚ) (i : ℕ) :
    (ribbonWhiteItem g i).id = "ribbon-white-" ++ natStr i := rfl

theorem ribbonBlueItem_id (g : ℕ → ℚ) (i : ℕ) :
    (ribbonBlueItem g i).id = "ribbon-blue-" ++ natStr i := rfl

theorem lightItem_id (g : ℕ → ℚ) (i : ℕ) :
    (lightItem g i).id = "light-" ++ natStr i := rfl

theorem photoItems_ids (gp : ℕ → ℚ) (ph : List String) :
    (photoItems gp ph).map SceneItem.id = (List.range ph.length).map photoId := by
  unfold photoItems
  rw [List.map_map]
  have h1 : (SceneItem.id ∘ fun iu : ℕ × String => photoItem gp ph.length iu.1 iu.2)
      = photoId ∘ Prod.fst := rfl
  rw [h1, ← List.map_map, List.enum_map_fst]

theorem items_filter_nonphoto (g : ℕ → ℚ) :
    (items g).filter (fun it => !(it.type == ItemType.photo)) = items g := by
  rw [List.filter_eq_self]
  intro a ha
  simp only [items, List.mem_append, List.mem_map, List.mem_range] at ha
  rcases ha with ((((⟨i, hi, rfl⟩ | ⟨i, hi, rfl⟩) | ⟨i, hi, rfl⟩) | ⟨i, hi, rfl⟩) | ⟨i, hi, rfl⟩)
  · simp only [ornamentItem]
    split <;> rfl
  · rfl
  · rfl
  · rfl
  · rfl

theorem photoItems_filter_nonphoto (gp : ℕ → ℚ) (ph : List String) :
    (photoItems gp ph).filter (fun it => !(it.type == ItemType.photo)) = [] := by
  rw [List.filter_eq_nil_iff]
  intro a ha
  simp only [photoItems, List.mem_map] at ha
  obtain ⟨iu, _, rfl⟩ := ha
  simp [photoItem]

theorem photoId_not_mem_items (g : ℕ → ℚ) (k : ℕ) :
    photoId k ∉ (items g).map SceneItem.id := by
  intro hmem
  simp only [items, List.map_append, List.mem_append, List.map_map, List.mem_map,
    List.mem_range, Function.comp] at hmem
  rcases hmem with ((((⟨i, hi, hid⟩ | ⟨i, hi, hid⟩) | ⟨i, hi, hid⟩) | ⟨i, hi, hid⟩) | ⟨i, hi, hid⟩)
  · rw [ornamentItem_id] at hid
    unfold photoId at hid
    exact append_ne_of_head_ne "ornament-" (natStr i) "photo-" (natStr k) 'o' 'p'
      (by decide) (by decide) (by decide) hid
  · rw [foilItem_id] at hid
    unfold photoId at hid
    exact append_ne_of_head_ne "foil-" (natStr i) "photo-" (natStr k) 'f' 'p'
      (by decide) (by decide) (by decide) hid
  · rw [ribbonWhiteItem_id] at hid
    unfold photoId at hid
    exact append_ne_of_head_ne "ribbon-white-" (natStr i) "photo-" (natStr k) 'r' 'p'
      (by decide) (by decide) (by decide) hid
  · rw [ribbonBlueItem_id] at hid
    unfold photoId at hid
    exact append_ne_of_head_ne "ribbon-blue-" (natStr i) "photo-" (natStr k) 'r' 'p'
      (by decide) (by decide) (by decide) hid
  · rw [lightItem_id] at hid
    unfold photoId at hid
    exact append_ne_of_head_ne "light-" (natStr i) "photo-" (natStr k) 'l' 'p'
      (by decide) (by decide) (by decide) hid

/-- Claim C8: across any change of the photo collection (and fresh
randomness for the regenerated photo subset), the non-photo subset of
the scene-item list is exactly unchanged — same ids, poses, colors,
scales; each photo item carries the index-derived id `photo-i`; and a
held focus id `photo-k` resolves to an existing item exactly when `k`
is below the current photo count. -/
theorem claim_C8_photo_regeneration :
    (∀ (g gp gp' : ℕ → ℚ) (ph ph' : List String),
      (allItems g gp ph).filter (fun it => !(it.type == ItemType.photo))
        = (allItems g gp' ph').filter (fun it => !(it.type == ItemType.photo)))
    ∧ (∀ (gp : ℕ → ℚ) (ph : List String),
      (photoItems gp ph).map SceneItem.id = (List.range ph.length).map photoId)
    ∧ (∀ (g gp : ℕ → ℚ) (ph : List String) (k : ℕ),
      photoId k ∈ (allItems g gp ph).map SceneItem.id ↔ k < ph.length) := by
  refine ⟨?_, photoItems_ids, ?_⟩
  · intro g gp gp' ph ph'
    unfold allItems
    rw [List.filter_append, List.filter_append, items_filter_nonphoto,
      photoItems_filter_nonphoto, photoItems_filter_nonphoto]
  · intro g gp ph k
    constructor
    · intro hmem
      unfold allItems at hmem
      rw [List.map_append, List.mem_append] at hmem
      rcases hmem with h | h
      · exact absurd h (photoId_not_mem_items g k)
      · rw [photoItems_ids, List.mem_map] at h
        obtain ⟨j, hj, hjk⟩ := h
        rw [List.mem_range] at hj
        rwa [← photoId_inj hjk]
    · intro hk
      unfold allItems
      rw [List.map_append, List.mem_append]
      right
      rw [photoItems_ids, List.mem_map]
      exact ⟨k, List.mem_range.mpr hk, rfl⟩

end AIStudio
